import Mathlib

/-!
Shallow embedding of `src/app.py` (the jarvis chat server): the history
codec (`serialize_content` / `deserialize_content`), the tool registry
(`check_health_status`), the response orchestrator (`get_gemini_response`)
and the `/ask` route handler (`ask`).

The external model client is modelled as an oracle
`List Content → Except String GenResponse`: an `.error e` value stands for
the Python client raising an exception whose string rendering is `e`.
Python truthiness of optional strings (None and "" are falsy) is modelled
explicitly, and a Python dict with optional keys is modelled by a record
whose fields are `Option (Option String)` (outer: key present, inner:
value, which may itself be Python None).
-/

namespace Jarvis

instance exceptDecEq {ε α : Type} [DecidableEq ε] [DecidableEq α] :
    DecidableEq (Except ε α) := fun x y =>
  match x, y with
  | .ok a, .ok b =>
    if h : a = b then .isTrue (by rw [h])
    else .isFalse (by intro hh; cases hh; exact h rfl)
  | .error a, .error b =>
    if h : a = b then .isTrue (by rw [h])
    else .isFalse (by intro hh; cases hh; exact h rfl)
  | .ok _, .error _ => .isFalse (by intro hh; cases hh)
  | .error _, .ok _ => .isFalse (by intro hh; cases hh)

/-- Lowercasing of one character as Python str.lower performs it on the
alphabets occurring in this program: ASCII A-Z and the Latin-1 uppercase
letters (U+00C0 to U+00DE, excluding the multiplication sign U+00D7). -/
def pyCharLower (c : Char) : Char :=
  if 65 ≤ c.toNat ∧ c.toNat ≤ 90 then Char.ofNat (c.toNat + 32)
  else if 192 ≤ c.toNat ∧ c.toNat ≤ 222 ∧ c.toNat ≠ 215 then Char.ofNat (c.toNat + 32)
  else c

/-- Python str.lower on a whole string. -/
def pyLower (s : String) : String :=
  String.mk (s.data.map pyCharLower)

/-- Substring test on character lists: does `pat` occur contiguously in `s`?
Models the Python expression `pat in s`. -/
def listContains (pat : List Char) : List Char → Bool
  | [] => pat.isEmpty
  | c :: t => pat.isPrefixOf (c :: t) || listContains pat t

/-- Python `pat in s` on strings. -/
def strContains (s pat : String) : Bool :=
  listContains pat.data s.data

/-- Case-insensitive substring matching as the spec words it: both the
scrutinee and the keyword are lowercased before the substring test.
(The code lowercases only the scrutinee; its keywords are already
lowercase.) -/
def ciContainsSpec (s kw : String) : Bool :=
  strContains (pyLower s) (pyLower kw)

/-- Canned reply of the movement branch of check_health_status. -/
def movimientoMsg : String :=
  "El último movimiento registrado fue hace 2 horas en la sala. Es hora de un recordatorio para caminar un poco."

/-- Canned reply of the blood-pressure branch of check_health_status. -/
def presionMsg : String :=
  "Presión arterial registrada: 145/90. Ligeramente alta. Se recomienda descanso y reevaluación en 15 minutos."

/-- Templated reply of the fallthrough branch of check_health_status. -/
def noMonitoreadaMsg (metric : String) : String :=
  "Métrica de salud \x27" ++ metric ++ "\x27 no monitoreada actualmente."

/-- The single registered tool, src/app.py lines 17-24. -/
def check_health_status (metric : String) : String :=
  if strContains (pyLower metric) "movimiento" then movimientoMsg
  else if strContains (pyLower metric) "presión" then presionMsg
  else noMonitoreadaMsg metric

/-- One part of a rich message: a text part (whose payload is the string
handed to types.Part(text=...)), a function-response part, or a
function-call part. `Part.text` below recovers the Python `.text`
attribute, which is None on the non-text constructors. -/
inductive Part where
  | textPart (s : String)
  | funcResponse (name : String) (result : String)
  | funcCall (name : String) (args : List (String × String))
deriving DecidableEq

/-- The Python `.text` attribute of a part. -/
def Part.text : Part → Option String
  | .textPart s => some s
  | _ => none

/-- A rich Turn (types.Content): optional role, optional list of parts. -/
structure Content where
  role : Option String
  parts : Option (List Part)
deriving DecidableEq

/-- A stored flat record, i.e. the Python dict built by serialize_content.
Each field is `some v` when the key is present with value `v`
(`v : Option String`, since the value may be Python None), and `none` when
the key is absent. -/
structure FlatRecord where
  role : Option (Option String)
  text : Option (Option String)
deriving DecidableEq

/-- Python truthiness of an optional string: None and "" are falsy. -/
def pyTruthy : Option String → Bool
  | none => false
  | some s => !(s == "")

/-- src/app.py lines 29-34: keep role and first part text only; return
None when the content is None, has no parts, or the first part text is
absent or empty. The role is passed through unexamined. -/
def serialize_content : Option Content → Option FlatRecord
  | none => none
  | some c =>
    match c.parts with
    | none => none
    | some [] => none
    | some (p :: _) =>
      match p.text with
      | none => none
      | some t =>
        if t = "" then none
        else some { role := some c.role, text := some (some t) }

/-- src/app.py lines 36-40: `if data and data[role-key] and data[text-key]`.
An empty or None dict is falsy and yields None; a falsy value under a
present key yields None; a missing key on a truthy dict raises KeyError,
modelled as `.error`. -/
def deserialize_content : Option FlatRecord → Except String (Option Content)
  | none => .ok none
  | some d =>
    if d.role = none ∧ d.text = none then .ok none
    else
      match d.role with
      | none => .error "KeyError: role"
      | some rv =>
        if pyTruthy rv then
          match d.text with
          | none => .error "KeyError: text"
          | some tv =>
            if pyTruthy tv then
              .ok (some { role := rv, parts := some [Part.textPart (tv.getD "")] })
            else .ok none
        else .ok none

/-- A tool-call request emitted by the external model: name plus the
argument dict (modelled as an association list). -/
structure FunctionCall where
  name : String
  args : List (String × String)
deriving DecidableEq

/-- One reply of the external model: the (possibly empty) list of
requested tool invocations, the first candidate content (the model turn
appended to the transcript on tool dispatch), and the reply text. -/
structure GenResponse where
  functionCalls : List FunctionCall
  candidateContent : Content
  text : String
deriving DecidableEq

/-- The external client: a map from a request transcript to a reply, where
`.error e` stands for a raised exception rendered as `e`. -/
def Oracle : Type :=
  List Content → Except String GenResponse

/-- The fallback result substituted for an unregistered tool name,
src/app.py line 82. -/
def unavailableMsg : String :=
  "Resultado: La función solicitada no está disponible."

/-- The apology produced by the except clause, src/app.py line 106. -/
def apology (e : String) : String :=
  "Lo siento, ocurrió un error en el sistema: " ++ e ++ ". Intenta de nuevo."

/-- Python `check_health_status(**args)`: succeeds exactly when the
argument dict has the single key metric; any other shape raises TypeError
at call time. -/
def callCheckHealth : List (String × String) → Except String String
  | [(k, v)] =>
    if k = "metric" then .ok (check_health_status v)
    else .error "TypeError: unexpected keyword argument"
  | _ => .error "TypeError: argument mismatch"

/-- src/app.py lines 79-82: registered name dispatches to the Python
function; any other name yields the fixed fallback string and never
raises. -/
def dispatchTool (fc : FunctionCall) : Except String String :=
  if fc.name = "check_health_status" then callCheckHealth fc.args
  else .ok unavailableMsg

/-- The fresh user turn built at src/app.py line 58 and line 137. -/
def userTurn (u : String) : Content :=
  { role := some "user", parts := some [Part.textPart u] }

/-- The synthetic function-result turn built at src/app.py lines 86-90. -/
def funcTurn (name result : String) : Content :=
  { role := some "function", parts := some [Part.funcResponse name result] }

/-- src/app.py lines 44-106 (get_gemini_response). Returns the result text
together with the list of transcripts sent to the external client, in
order, so that the number and content of external calls is part of the
model. Every exception (client raise at either call, or a TypeError from
the tool invocation) lands in the apology string. -/
def get_gemini_response (oracle : Oracle) (user_input : String)
    (chat_history : List Content) : String × List (List Content) :=
  let contents := chat_history ++ [userTurn user_input]
  match oracle contents with
  | .error e => (apology e, [contents])
  | .ok response =>
    match response.functionCalls with
    | [] => (response.text, [contents])
    | function_call :: _ =>
      match dispatchTool function_call with
      | .error e => (apology e, [contents])
      | .ok function_result =>
        let contents2 := contents ++
          [response.candidateContent, funcTurn function_call.name function_result]
        match oracle contents2 with
        | .error e => (apology e, [contents, contents2])
        | .ok second_response => (second_response.text, [contents, contents2])

/-- The list comprehension at src/app.py line 130: deserialize each stored
item left to right; a raise inside propagates out of the comprehension. -/
def deserializeAll : List (Option FlatRecord) → Except String (List (Option Content))
  | [] => .ok []
  | d :: rest =>
    match deserialize_content d with
    | .error e => .error e
    | .ok c =>
      match deserializeAll rest with
      | .error e => .error e
      | .ok cs => .ok (c :: cs)

/-- The JSON error body returned at src/app.py line 123. -/
def noMessageBody : List (String × String) :=
  [("error", "No se recibió mensaje")]

/-- Outcome of one POST /ask request: HTTP status, JSON body (an
association list of string fields), the session history after the
request, and the transcripts of the external calls made. -/
structure AskResult where
  status : Nat
  body : List (String × String)
  history : List (Option FlatRecord)
  calls : List (List Content)
deriving DecidableEq

/-- src/app.py lines 118-147 (the /ask route). `user_input` is None when
the form field is missing. The stored history is a list of the values
appended at lines 141-142, hence `Option FlatRecord`: the code appends
whatever serialize_content returns, including None. An uncaught exception
out of the handler (only possible from deserialize_content) is `.error`. -/
def ask (oracle : Oracle) (user_input : Option String)
    (stored : List (Option FlatRecord)) : Except String AskResult :=
  match user_input with
  | none => .ok ⟨400, noMessageBody, stored, []⟩
  | some u =>
    if u = "" then .ok ⟨400, noMessageBody, stored, []⟩
    else
      match deserializeAll stored with
      | .error e => .error e
      | .ok decoded =>
        let gemini_history := decoded.filterMap id
        let r := get_gemini_response oracle u gemini_history
        let new_user := userTurn u
        let new_model : Content := { role := some "model", parts := some [Part.textPart r.1] }
        let newHist := stored ++ [serialize_content (some new_user), serialize_content (some new_model)]
        .ok ⟨200, [("response", r.1), ("user_input", u)], newHist, r.2⟩

/-! Concrete oracles used to instantiate the theorems below on closed
inputs. -/

/-- An external client whose every call raises. -/
def oracleFail : Oracle := fun _ => .error "boom"

/-- An external client that replies once with plain empty text. -/
def oracleEmptyReply : Oracle :=
  fun _ => .ok ⟨[], ⟨some "model", some []⟩, ""⟩

/-- An external client that replies with plain nonempty text. -/
def oracleText : Oracle :=
  fun _ => .ok ⟨[], ⟨some "model", some [Part.textPart "Hola, aquí estoy."]⟩, "Hola, aquí estoy."⟩

/-- The model turn carrying a registered tool call. -/
def toolCallTurn : Content :=
  ⟨some "model", some [Part.funcCall "check_health_status" [("metric", "último movimiento")]]⟩

/-- The final conversational reply of the two-call scenarios. -/
def finalReply : GenResponse :=
  ⟨[], ⟨some "model", some [Part.textPart "Caminemos un poco."]⟩, "Caminemos un poco."⟩

/-- An external client that requests the registered tool on the first
call and answers with text on the second. -/
def oracleToolCall : Oracle := fun cs =>
  if cs.length ≤ 1 then
    .ok ⟨[⟨"check_health_status", [("metric", "último movimiento")]⟩], toolCallTurn, ""⟩
  else .ok finalReply

/-- The model turn carrying an unregistered tool call. -/
def unknownToolTurn : Content :=
  ⟨some "model", some [Part.funcCall "otra_funcion" []]⟩

/-- An external client that requests an unregistered tool on the first
call and answers with text on the second. -/
def oracleUnknownTool : Oracle := fun cs =>
  if cs.length ≤ 1 then .ok ⟨[⟨"otra_funcion", []⟩], unknownToolTurn, ""⟩
  else .ok finalReply

/-- The apology string is never empty, so the model turn built from it is
always storable. -/
theorem apology_ne_empty (e : String) : apology e ≠ "" := by
  intro h
  have h2 := congrArg String.length h
  rw [apology, String.length_append, String.length_append] at h2
  have h3 : ("Lo siento, ocurrió un error en el sistema: " : String).length = 43 := by decide
  rw [h3] at h2
  simp at h2

/-- C6: check_health_status answers by case-insensitive substring
matching: the movement keyword selects the canned movement-status string,
otherwise the pressure keyword selects the canned blood-pressure string,
and otherwise the templated not-monitored string echoing the metric is
returned. -/
theorem C6_check_health_status_cases (m : String) :
    check_health_status m =
      (if ciContainsSpec m "movimiento" then movimientoMsg
       else if ciContainsSpec m "presión" then presionMsg
       else noMonitoreadaMsg m) := by
  have h1 : pyLower "movimiento" = "movimiento" := by decide
  have h2 : pyLower "presión" = "presión" := by decide
  rw [check_health_status, ciContainsSpec, ciContainsSpec, h1, h2]

/-- C10: when a metric contains both the movement keyword and the
pressure keyword (case-insensitively), the movement branch wins: it is
tested first and takes precedence. -/
theorem C10_movement_precedence (m : String)
    (h1 : ciContainsSpec m "movimiento" = true)
    (_h2 : ciContainsSpec m "presión" = true) :
    check_health_status m = movimientoMsg := by
  have e1 : pyLower "movimiento" = "movimiento" := by decide
  rw [ciContainsSpec, e1] at h1
  rw [check_health_status, if_pos h1]

/-- Witness for C10 at the concrete metric containing both keywords. -/
theorem C10_witness :
    ciContainsSpec "Movimiento y PRESIÓN" "movimiento" = true ∧
    ciContainsSpec "Movimiento y PRESIÓN" "presión" = true ∧
    check_health_status "Movimiento y PRESIÓN" = movimientoMsg :=
  ⟨by decide, by decide, C10_movement_precedence _ (by decide) (by decide)⟩

/-- C3: for a Turn with a set (nonempty) role and exactly one content
part whose text is nonempty, decoding the encoding gives the Turn back. -/
theorem C3_roundtrip (r s : String) (hr : r ≠ "") (hs : s ≠ "") :
    deserialize_content (serialize_content (some ⟨some r, some [Part.textPart s]⟩)) =
      .ok (some ⟨some r, some [Part.textPart s]⟩) := by
  rw [serialize_content]
  simp only [Part.text, if_neg hs]
  rw [deserialize_content]
  simp [pyTruthy, hr, hs]

/-- Witness for C3 at a concrete single-part user Turn. -/
theorem C3_witness :
    deserialize_content (serialize_content (some ⟨some "user", some [Part.textPart "hola"]⟩)) =
      .ok (some ⟨some "user", some [Part.textPart "hola"]⟩) :=
  C3_roundtrip "user" "hola" (by decide) (by decide)

/-- C4 counterexample: a Turn with unset role but nonempty first-part
text does not encode to none; serialize_content never examines the role
and stores it as-is. -/
theorem C4_counterexample :
    serialize_content (some ⟨none, some [Part.textPart "hola"]⟩) ≠ none ∧
    serialize_content (some ⟨none, some [Part.textPart "hola"]⟩) =
      some ⟨some none, some (some "hola")⟩ := by
  constructor
  · decide
  · decide

/-- C4 amended: encode returns none exactly when the turn is absent, has
absent or empty parts, or a first part with absent or empty text; in every
other case it returns the flat record built from the role (unexamined,
possibly unset) and the first part's text, dropping all further parts. -/
theorem C4_encode_characterization (co : Content) :
    (serialize_content (some co) = none ↔
      co.parts = none ∨ co.parts = some [] ∨
      ∃ p rest, co.parts = some (p :: rest) ∧ (p.text = none ∨ p.text = some "")) ∧
    (∀ p rest t, co.parts = some (p :: rest) → p.text = some t → t ≠ "" →
      serialize_content (some co) = some ⟨some co.role, some (some t)⟩) := by
  obtain ⟨ro, pa⟩ := co
  constructor
  · match pa with
    | none => simp [serialize_content]
    | some [] => simp [serialize_content]
    | some (p :: rest) =>
      match hp : p.text with
      | none => simp [serialize_content, hp]
      | some t =>
        by_cases h0 : t = ""
        · subst h0
          simp [serialize_content, hp]
        · simp [serialize_content, hp, h0]
  · intro p rest t hpa ht h0
    cases hpa
    rw [serialize_content]
    simp only [ht, if_neg h0]

/-- Witness for C4 amended at a two-part Turn: the record keeps only the
first part's text. -/
theorem C4_witness :
    serialize_content (some ⟨some "user", some [Part.textPart "hola", Part.textPart "adiós"]⟩) =
      some ⟨some (some "user"), some (some "hola")⟩ :=
  (C4_encode_characterization ⟨some "user", some [Part.textPart "hola", Part.textPart "adiós"]⟩).2
    (Part.textPart "hola") [Part.textPart "adiós"] "hola" rfl rfl (by decide)

/-- C5 counterexample: a nonempty flat record missing the role key makes
deserialize_content raise KeyError rather than return none. -/
theorem C5_counterexample :
    deserialize_content (some ⟨none, some (some "hola")⟩) = .error "KeyError: role" := by
  decide

/-- C5 amended: on a record with both keys present, a falsy role or text
value yields none without raising, and truthy values yield the single-part
rich Turn; only a nonempty record missing a required key raises. -/
theorem C5_decode_characterization (rv tv : Option String) :
    (pyTruthy rv = false ∨ pyTruthy tv = false →
      deserialize_content (some ⟨some rv, some tv⟩) = .ok none) ∧
    (∀ r t, rv = some r → r ≠ "" → tv = some t → t ≠ "" →
      deserialize_content (some ⟨some rv, some tv⟩) =
        .ok (some ⟨some r, some [Part.textPart t]⟩)) := by
  constructor
  · intro h
    rw [deserialize_content]
    rcases h with h | h
    · simp [h]
    · by_cases hrv : pyTruthy rv = true
      · simp [hrv, h]
      · simp [hrv]
  · intro r t hr hrne ht htne
    subst hr
    subst ht
    rw [deserialize_content]
    simp [pyTruthy, hrne, htne]

/-- Witness for C5 amended at a concrete well-formed record. -/
theorem C5_witness :
    deserialize_content (some ⟨some (some "user"), some (some "hola")⟩) =
      .ok (some ⟨some "user", some [Part.textPart "hola"]⟩) :=
  (C5_decode_characterization (some "user") (some "hola")).2 "user" "hola"
    rfl (by decide) rfl (by decide)

/-- C1: when the first external reply carries tool-call requests, only
the first one is serviced (the rest are ignored), the registry function
is invoked on its argument, the model's tool-call turn and the synthetic
function-result turn carrying the result string are appended to the
transcript, exactly one second external call is made with that
transcript, and its text is returned. -/
theorem C1_tool_dispatch (oracle : Oracle) (u : String) (hist : List Content)
    (m : String) (rest : List FunctionCall) (r1 r2 : GenResponse)
    (h1 : oracle (hist ++ [userTurn u]) = .ok r1)
    (hfc : r1.functionCalls = ⟨"check_health_status", [("metric", m)]⟩ :: rest)
    (h2 : oracle (hist ++ [userTurn u] ++
        [r1.candidateContent, funcTurn "check_health_status" (check_health_status m)]) = .ok r2) :
    get_gemini_response oracle u hist =
      (r2.text,
       [hist ++ [userTurn u],
        hist ++ [userTurn u] ++
          [r1.candidateContent, funcTurn "check_health_status" (check_health_status m)]]) := by
  rw [get_gemini_response]
  simp only [h1, hfc]
  simp only [List.append_assoc, List.cons_append, List.nil_append] at h2
  simp [dispatchTool, callCheckHealth, h2]

/-- Witness for C1: a scripted client requesting check_health_status on
movement; the orchestrator returns the second reply's text and issued the
two recorded calls. -/
theorem C1_witness :
    get_gemini_response oracleToolCall "hola" [] =
      ("Caminemos un poco.",
       [[userTurn "hola"],
        [userTurn "hola", toolCallTurn,
         funcTurn "check_health_status" (check_health_status "último movimiento")]]) :=
  C1_tool_dispatch oracleToolCall "hola" [] "último movimiento" []
    ⟨[⟨"check_health_status", [("metric", "último movimiento")]⟩], toolCallTurn, ""⟩
    finalReply (by decide) rfl (by decide)

/-- C7: an unregistered tool name never raises; the fixed fallback string
is substituted as the tool result and the second external call completes
normally, its text being returned. -/
theorem C7_unknown_tool (oracle : Oracle) (u : String) (hist : List Content)
    (nm : String) (args : List (String × String)) (rest : List FunctionCall)
    (r1 r2 : GenResponse)
    (hnm : nm ≠ "check_health_status")
    (h1 : oracle (hist ++ [userTurn u]) = .ok r1)
    (hfc : r1.functionCalls = ⟨nm, args⟩ :: rest)
    (h2 : oracle (hist ++ [userTurn u] ++
        [r1.candidateContent, funcTurn nm unavailableMsg]) = .ok r2) :
    get_gemini_response oracle u hist =
      (r2.text,
       [hist ++ [userTurn u],
        hist ++ [userTurn u] ++ [r1.candidateContent, funcTurn nm unavailableMsg]]) := by
  rw [get_gemini_response]
  simp only [h1, hfc]
  simp only [List.append_assoc, List.cons_append, List.nil_append] at h2
  simp [dispatchTool, if_neg hnm, h2]

/-- Witness for C7: a scripted client requesting an unregistered tool;
the flow completes with the second reply's text. -/
theorem C7_witness :
    get_gemini_response oracleUnknownTool "hola" [] =
      ("Caminemos un poco.",
       [[userTurn "hola"],
        [userTurn "hola", unknownToolTurn, funcTurn "otra_funcion" unavailableMsg]]) :=
  C7_unknown_tool oracleUnknownTool "hola" [] "otra_funcion" [] []
    ⟨[⟨"otra_funcion", []⟩], unknownToolTurn, ""⟩ finalReply
    (by decide) (by decide) rfl (by decide)

/-- C2: any exception raised at the first external call, at the second
external call, or inside the tool invocation, is converted into the
apology string embedding the error text, and the route still answers 200
with that string in the response field: nothing propagates out of the
handler. -/
theorem C2_error_to_200 (oracle : Oracle) (u : String)
    (stored : List (Option FlatRecord)) (decoded : List (Option Content)) (e : String)
    (hu : u ≠ "")
    (hdec : deserializeAll stored = .ok decoded)
    (herr :
      oracle (decoded.filterMap id ++ [userTurn u]) = .error e ∨
      (∃ r1 fc rest, oracle (decoded.filterMap id ++ [userTurn u]) = .ok r1 ∧
        r1.functionCalls = fc :: rest ∧ dispatchTool fc = .error e) ∨
      (∃ r1 fc rest res, oracle (decoded.filterMap id ++ [userTurn u]) = .ok r1 ∧
        r1.functionCalls = fc :: rest ∧ dispatchTool fc = .ok res ∧
        oracle (decoded.filterMap id ++ [userTurn u] ++
          [r1.candidateContent, funcTurn fc.name res]) = .error e)) :
    ∃ h c, ask oracle (some u) stored =
      .ok ⟨200, [("response", apology e), ("user_input", u)], h, c⟩ := by
  have hg : (get_gemini_response oracle u (decoded.filterMap id)).1 = apology e := by
    rcases herr with h | ⟨r1, fc, rest, hok, hfc, hdisp⟩ | ⟨r1, fc, rest, res, hok, hfc, hdisp, h2⟩
    · rw [get_gemini_response]
      simp only [h]
    · rw [get_gemini_response]
      simp only [hok, hfc, hdisp]
    · rw [get_gemini_response]
      simp only [hok, hfc, hdisp]
      simp only [List.append_assoc, List.cons_append, List.nil_append] at h2
      simp [h2]
  have key : ask oracle (some u) stored =
      .ok ⟨200, [("response", apology e), ("user_input", u)],
        stored ++ [serialize_content (some (userTurn u)),
          serialize_content (some ⟨some "model",
            some [Part.textPart ((get_gemini_response oracle u (decoded.filterMap id)).1)]⟩)],
        (get_gemini_response oracle u (decoded.filterMap id)).2⟩ := by
    rw [ask]
    simp only [if_neg hu, hdec, hg]
  exact ⟨_, _, key⟩

/-- Witness for C2: a client whose first call raises; the route returns
200 carrying the apology. -/
theorem C2_witness :
    ∃ h c, ask oracleFail (some "hola") [] =
      .ok ⟨200, [("response", apology "boom"), ("user_input", "hola")], h, c⟩ :=
  C2_error_to_200 oracleFail "hola" [] [] "boom" (by decide) rfl (Or.inl rfl)

/-- C8: a missing or empty user_input form field yields status 400 with
the fixed error body, the stored history is unchanged and no external
call is made (the orchestrator is never invoked). -/
theorem C8_missing_input (oracle : Oracle) (stored : List (Option FlatRecord))
    (ui : Option String) (h : ui = none ∨ ui = some "") :
    ask oracle ui stored = .ok ⟨400, noMessageBody, stored, []⟩ := by
  rcases h with h | h
  · subst h
    rfl
  · subst h
    rw [ask]
    simp

/-- Witness for C8 at a missing field. -/
theorem C8_witness :
    ask oracleFail none [] = .ok ⟨400, noMessageBody, [], []⟩ :=
  C8_missing_input oracleFail [] none (Or.inl rfl)

/-- C9 counterexample: when the model's reply text is empty, the handler
still appends two entries, but the second is the encoding none, and an
entry that encodes to none IS appended to the stored history. -/
theorem C9_counterexample :
    ask oracleEmptyReply (some "hola") [] =
      .ok ⟨200, [("response", ""), ("user_input", "hola")],
        [some ⟨some (some "user"), some (some "hola")⟩, none],
        [[userTurn "hola"]]⟩ ∧
    serialize_content (some ⟨some "model", some [Part.textPart ""]⟩) = none := by
  constructor
  · decide
  · decide

/-- C9 amended: every successful POST appends exactly two entries to the
stored history — the encoding of the user turn (always a user flat
record) followed by the encoding of the model turn — so growth is
strictly append-only and order-preserving; the model entry is a model
flat record whenever the returned text is nonempty, and is none (appended
as-is) when the text is empty. -/
theorem C9_append_only (oracle : Oracle) (u : String)
    (stored : List (Option FlatRecord)) (decoded : List (Option Content))
    (hu : u ≠ "") (hdec : deserializeAll stored = .ok decoded) :
    ∃ txt calls,
      ask oracle (some u) stored =
        .ok ⟨200, [("response", txt), ("user_input", u)],
          stored ++ [some ⟨some (some "user"), some (some u)⟩,
                     serialize_content (some ⟨some "model", some [Part.textPart txt]⟩)],
          calls⟩ ∧
      (txt ≠ "" →
        serialize_content (some ⟨some "model", some [Part.textPart txt]⟩) =
          some ⟨some (some "model"), some (some txt)⟩) := by
  refine ⟨(get_gemini_response oracle u (decoded.filterMap id)).1,
          (get_gemini_response oracle u (decoded.filterMap id)).2, ?_, ?_⟩
  · rw [ask]
    simp only [if_neg hu, hdec]
    rw [serialize_content]
    simp only [userTurn, Part.text, if_neg hu]
  · intro h
    rw [serialize_content]
    simp only [Part.text, if_neg h]

/-- Witness for C9 amended: a plain-text reply appends the user record
and the model record. -/
theorem C9_witness :
    ∃ txt calls,
      ask oracleText (some "hola") [] =
        .ok ⟨200, [("response", txt), ("user_input", "hola")],
          [] ++ [some ⟨some (some "user"), some (some "hola")⟩,
                 serialize_content (some ⟨some "model", some [Part.textPart txt]⟩)],
          calls⟩ ∧
      (txt ≠ "" →
        serialize_content (some ⟨some "model", some [Part.textPart txt]⟩) =
          some ⟨some (some "model"), some (some txt)⟩) :=
  C9_append_only oracleText "hola" [] [] (by decide) rfl

end Jarvis
